/-
Verification of the urine-sediment analysis backend (FastAPI + Supabase + YOLO).

Shallow embedding of the repository's Python code:
  * app/utils/labels.py      : CLASS_NAMES, get_class_name
  * app/dependencies.py      : verify_token
  * app/routes/predict.py    : predict_image (the detection pipeline)
  * app/routes/storage.py    : get_signed_url (signed-access issuer)
  * app/config.py            : STORAGE_BUCKET

External collaborators (Supabase record store, Supabase object store, the
YOLO inference engine, PIL image decoding, the identity resolver) are not
part of the repository; their outcomes are passed in as explicit
environment values, and the pipeline's observable effects (blob uploads,
compensating deletes, inference invocations, record-store inserts) are
returned as an explicit effect record.

Python `dict` operations are modelled by insertion-ordered association
lists, Python strings by Lean `String` (a sequence of code points, matching
Python's character-indexed slicing and splitting), and raised
exceptions / HTTP error responses by `Except` with an `HErr` payload.
-/
import Mathlib

set_option linter.unusedVariables false

deriving instance DecidableEq for Except

/-- An HTTP error response: `HTTPException(status_code=..., detail=...)`. -/
structure HErr where
  status : Nat
  detail : String
deriving DecidableEq, Repr

/-- Rendering of `str(HTTPException(status, detail))` as FastAPI produces it: `"{status}: {detail}"`.
Used where the Python code catches its own `HTTPException` in a generic
`except Exception` handler and interpolates it into a new message. -/
def httpDetail (status : Nat) (detail : String) : String :=
  toString status ++ ": " ++ detail

/-! ## app/utils/labels.py -/

/-- The fixed YOLO-index → medical-name enumeration (`CLASS_NAMES` dict). -/
def CLASS_NAMES : List (Int × String) :=
  [(0, "erythrocyte"),
   (1, "leukocyte"),
   (2, "epithelial_cell"),
   (3, "crystal"),
   (4, "cast"),
   (5, "bacteria"),
   (6, "yeast")]

/-- Embeds `get_class_name(class_id)`: `CLASS_NAMES.get(class_id, "unknown")`. -/
def get_class_name (class_id : Int) : String :=
  match CLASS_NAMES.lookup class_id with
  | some n => n
  | none => "unknown"

/-! ## Python dict as insertion-ordered association list -/

/-- Python `d.get(k, 0)` on a dict with Nat values. -/
def dictGet : List (String × Nat) → String → Nat
  | [], _ => 0
  | (k', v) :: rest, k => if k' = k then v else dictGet rest k

/-- Python `d[k] = v` on a dict: replace the binding if the key is present,
append a new binding otherwise (insertion order preserved). -/
def dictSet : List (String × Nat) → String → Nat → List (String × Nat)
  | [], k, v => [(k, v)]
  | (k', v') :: rest, k, v =>
      if k' = k then (k, v) :: rest else (k', v') :: dictSet rest k v

/-- Python `sum(d.values())`. -/
def sumValues (d : List (String × Nat)) : Nat :=
  (d.map (fun p => p.2)).sum

/-! ## app/routes/predict.py : data model -/

/-- A row of the `visits` table as selected by the pipeline
(`select("id, doctor_id, case_id")`). -/
structure Visit where
  id : String
  doctor_id : String
  case_id : String
deriving DecidableEq, Repr

/-- One raw detection from the inference engine: `box.cls[0]`, `box.conf[0]`,
`box.xyxy[0]`.  Coordinates and confidence are modelled as rationals. -/
structure Box where
  cls : Int
  conf : Rat
  x1 : Rat
  y1 : Rat
  x2 : Rat
  y2 : Rat
deriving DecidableEq, Repr

/-- The rounded bounding box stored in a detection entry. -/
structure BBox where
  x1 : Rat
  y1 : Rat
  x2 : Rat
  y2 : Rat
deriving DecidableEq, Repr

/-- One entry of the `detections` jsonb list. -/
structure Detection where
  class_id : Int
  class_name : String
  confidence : Rat
  bbox : BBox
deriving DecidableEq, Repr

/-- Python `round(x, n)` on the pipeline's numeric values, modelled half-up on
rationals (the claims under verification do not depend on the tie-breaking
of Python's float rounding, only on the shape of the data). -/
def round_py (q : Rat) (n : Nat) : Rat :=
  (((q * (10 : Rat) ^ n + 1 / 2).floor : Int) : Rat) / (10 : Rat) ^ n

/-- The `images` table row inserted by the pipeline (`image_data`). -/
structure ImageRow where
  doctor_id : String
  visit_id : String
  storage_path : String
  original_filename : String
  content_type : String
deriving DecidableEq, Repr

/-- The `analysis_results` table row inserted by the pipeline (`analysis_data`). -/
structure AnalysisRow where
  doctor_id : String
  image_id : String
  model_name : String
  counts : List (String × Nat)
  detections : List Detection
deriving DecidableEq, Repr

/-- The JSON body returned on success. -/
structure PredictResponse where
  image_id : String
  analysis_id : String
  storage_path : String
  counts : List (String × Nat)
  detections : List Detection
  total_detections : Nat
deriving DecidableEq, Repr

/-- The caller-visible inputs of one submit-image request.  `decoded` is the
outcome of `PIL.Image.open` on the uploaded bytes (an external library):
either an exception message or the decoded image's `format` string.
`extraBody` are any additional form fields the caller sends; FastAPI ignores
fields the endpoint does not declare, so the pipeline never reads it. -/
structure Request where
  visit_id : String
  filename : String
  fileExt : String
  content_type : Option String
  bytesLen : Nat
  decoded : Except String String
  extraBody : List (String × String)
deriving DecidableEq, Repr

/-- Outcomes of the external collaborators during one pipeline run.
`Except.error` models the collaborator raising; for the record-store calls
`Except.ok none` models a response whose `.data` is empty/falsy. -/
structure Env where
  visitQuery : Except String (Option Visit)
  timestamp : String
  randSuffix : String
  upload : Except String Bool
  inference : Except String (Option (List Box))
  imageInsert : Except String (Option String)
  analysisInsert : Except String (Option String)

/-- One pipeline run: the HTTP outcome plus every externally observable
effect (object-store uploads, compensating removals, inference-engine
invocations, record-store inserts). -/
structure RunResult where
  response : Except HErr PredictResponse
  uploaded : List String
  removed : List String
  inferenceCalls : Nat
  imageRows : List ImageRow
  analysisRows : List AnalysisRow
deriving DecidableEq, Repr

/-- A run that failed before any external effect. -/
def noEffects (r : Except HErr PredictResponse) : RunResult :=
  { response := r, uploaded := [], removed := [], inferenceCalls := 0,
    imageRows := [], analysisRows := [] }

/-! ## app/routes/predict.py : step 2 (image intake validation) -/

/-- Step 2 of `predict_image`: decode, whitelist the format, bound the size.
Mirrors the `try` block: a decode exception → 400 with the interpolated
message; format not in `["JPEG", "PNG"]` → 400 unsupported; byte length
over `10 * 1024 * 1024` → 400 too large. -/
def validate_image (decoded : Except String String) (bytesLen : Nat) :
    Except HErr String :=
  match decoded with
  | .error e => .error ⟨400, "Error al procesar imagen: " ++ e⟩
  | .ok fmt =>
      if fmt ∉ (["JPEG", "PNG"] : List String) then
        .error ⟨400, "Formato de imagen no soportado. Use JPEG o PNG"⟩
      else if bytesLen > 10 * 1024 * 1024 then
        .error ⟨400, "Imagen demasiado grande (máximo 10MB)"⟩
      else
        .ok fmt

/-! ## app/routes/predict.py : step 5 (detection normalization) -/

/-- Embeds `counts = {name: 0 for name in CLASS_NAMES.values()}`. -/
def initCounts : List (String × Nat) :=
  CLASS_NAMES.map (fun p => (p.2, 0))

/-- The loop body over `result.boxes`: build the detection entry and
increment `counts[class_name]`. -/
def stepBox (acc : List Detection × List (String × Nat)) (box : Box) :
    List Detection × List (String × Nat) :=
  let class_name := get_class_name box.cls
  let detection : Detection :=
    { class_id := box.cls
      class_name := class_name
      confidence := round_py box.conf 4
      bbox := { x1 := round_py box.x1 2, y1 := round_py box.y1 2,
                x2 := round_py box.x2 2, y2 := round_py box.y2 2 } }
  (acc.1 ++ [detection], dictSet acc.2 class_name (dictGet acc.2 class_name + 1))

/-- The whole `for box in result.boxes` loop, starting from empty
detections and the zero-initialized counts. -/
def processBoxes (boxes : List Box) : List Detection × List (String × Nat) :=
  boxes.foldl stepBox ([], initCounts)

/-! ## app/routes/predict.py : the pipeline -/

/-- Embeds `predict_image(file, visit_id, supabase, doctor_id)` with the YOLO model
availability (`model` is not `None`) as `modelLoaded` and all collaborator
outcomes in `env`.  Faithful to the source's ordering:
model check → visit ownership → image validation → path generation →
blob upload → inference → image insert (compensating blob delete on
failure) → analysis insert (no compensation) → success response. -/
def predict_image (doctor_id : String) (req : Request) (env : Env)
    (modelLoaded : Bool) : RunResult :=
  if !modelLoaded then
    noEffects (.error ⟨500, "Modelo YOLO no disponible"⟩)
  else
    match env.visitQuery with
    | .error e => noEffects (.error ⟨400, "Error al validar visita: " ++ e⟩)
    | .ok none => noEffects (.error ⟨404, "Visita no encontrada"⟩)
    | .ok (some visit) =>
      if visit.doctor_id ≠ doctor_id then
        noEffects (.error ⟨403, "No tienes permiso para acceder a esta visita"⟩)
      else
        match validate_image req.decoded req.bytesLen with
        | .error err => noEffects (.error err)
        | .ok _fmt =>
          let file_extension := if req.fileExt ≠ "" then req.fileExt else ".jpg"
          let storage_filename :=
            env.timestamp ++ "_" ++ env.randSuffix ++ file_extension
          let storage_path :=
            doctor_id ++ "/" ++ req.visit_id ++ "/" ++ storage_filename
          match env.upload with
          | .error e =>
            noEffects (.error ⟨500, "Error al subir imagen: " ++ e⟩)
          | .ok uploadTruthy =>
            if !uploadTruthy then
              { response := .error ⟨500, "Error al subir imagen: " ++
                  httpDetail 500 "Error al subir imagen a Storage"⟩,
                uploaded := [storage_path], removed := [],
                inferenceCalls := 0, imageRows := [], analysisRows := [] }
            else
              match env.inference with
              | .error e =>
                { response := .error ⟨500, "Error al ejecutar modelo YOLO: " ++ e⟩,
                  uploaded := [storage_path], removed := [],
                  inferenceCalls := 1, imageRows := [], analysisRows := [] }
              | .ok boxesOpt =>
                let dc := match boxesOpt with
                  | none => ([], initCounts)
                  | some boxes => processBoxes boxes
                let detections := dc.1
                let counts := dc.2
                match env.imageInsert with
                | .error e =>
                  { response := .error ⟨500, "Error al guardar imagen en BD: " ++ e⟩,
                    uploaded := [storage_path], removed := [storage_path],
                    inferenceCalls := 1, imageRows := [], analysisRows := [] }
                | .ok none =>
                  { response := .error ⟨500, "Error al guardar imagen en BD: " ++
                      httpDetail 500 "Error al guardar metadata de imagen"⟩,
                    uploaded := [storage_path], removed := [storage_path],
                    inferenceCalls := 1, imageRows := [], analysisRows := [] }
                | .ok (some image_id) =>
                  let image_row : ImageRow :=
                    { doctor_id := doctor_id, visit_id := req.visit_id,
                      storage_path := storage_path,
                      original_filename := req.filename,
                      content_type := req.content_type.getD "image/jpeg" }
                  match env.analysisInsert with
                  | .error e =>
                    { response := .error ⟨500, "Error al guardar resultados: " ++ e⟩,
                      uploaded := [storage_path], removed := [],
                      inferenceCalls := 1, imageRows := [image_row],
                      analysisRows := [] }
                  | .ok none =>
                    { response := .error ⟨500, "Error al guardar resultados: " ++
                        httpDetail 500 "Error al guardar resultados del análisis"⟩,
                      uploaded := [storage_path], removed := [],
                      inferenceCalls := 1, imageRows := [image_row],
                      analysisRows := [] }
                  | .ok (some result_id) =>
                    let analysis_row : AnalysisRow :=
                      { doctor_id := doctor_id, image_id := image_id,
                        model_name := "best.pt", counts := counts,
                        detections := detections }
                    { response := .ok
                        { image_id := image_id, analysis_id := result_id,
                          storage_path := storage_path, counts := counts,
                          detections := detections,
                          total_detections := detections.length },
                      uploaded := [storage_path], removed := [],
                      inferenceCalls := 1, imageRows := [image_row],
                      analysisRows := [analysis_row] }

/-! ## app/dependencies.py : verify_token -/

/-- Embeds `verify_token(credentials)`: the identity resolver
(`supabase_auth.auth.get_user(token)`) either raises (`Except.error msg`)
or returns a response whose `.user` is `none` or `some user_id`.  A `none`
user raises `HTTPException(401, "Token inválido")` inside the `try`, which
the generic handler re-wraps like any other exception. -/
def verify_token (resolver : Except String (Option String)) :
    Except HErr String :=
  match resolver with
  | .error e => .error ⟨401, "Error al verificar token: " ++ e⟩
  | .ok none => .error ⟨401, "Error al verificar token: " ++
      httpDetail 401 "Token inválido"⟩
  | .ok (some user_id) => .ok user_id

/-- The endpoint as FastAPI wires it: resolve the credential first
(`Depends(verify_token)`), then run the pipeline with the resolved
identity. -/
def predict_endpoint (resolver : Except String (Option String))
    (req : Request) (env : Env) (modelLoaded : Bool) : RunResult :=
  match verify_token resolver with
  | .error e => noEffects (.error e)
  | .ok doctor_id => predict_image doctor_id req env modelLoaded

/-! ## app/config.py -/

/-- Embeds `STORAGE_BUCKET = "urine-images"`. -/
def STORAGE_BUCKET : String := "urine-images"

/-! ## app/routes/storage.py : string helpers

Python strings are sequences of code points; `s.startswith(t)`,
`s[n:]` and `s.split("/")` are modelled on the `String.data` character
list. -/

/-- Here `startsWithChars pat cs` means `pat` is a character-wise leading segment of `cs`. -/
def startsWithChars : List Char → List Char → Bool
  | [], _ => true
  | _ :: _, [] => false
  | p :: ps, c :: cs => p = c && startsWithChars ps cs

/-- Python `s.startswith(pre)`. -/
def strStartsWith (s pre : String) : Bool :=
  startsWithChars pre.data s.data

/-- Python `s.split("/")` on the character list (single-character separator):
always returns at least one segment; empty segments are kept. -/
def splitSlash : List Char → List (List Char)
  | [] => [[]]
  | c :: rest =>
    match splitSlash rest with
    | [] => [[]]
    | s :: ss => if c = '/' then [] :: s :: ss else (c :: s) :: ss

/-- Embeds `storage_path.split("/")` as a list of strings. -/
def pathParts (s : String) : List String :=
  (splitSlash s.data).map (fun cs => ⟨cs⟩)

/-- Lines 29–31 of `storage.py`: strip the bucket name when the caller sent
`"urine-images/..."` — `storage_path[len(STORAGE_BUCKET) + 1:]`. -/
def stripBucket (s : String) : String :=
  if strStartsWith s (STORAGE_BUCKET ++ "/") then
    ⟨s.data.drop (STORAGE_BUCKET.data.length + 1)⟩
  else s

/-- Python `pat in s` (substring containment) on character lists. -/
def substrIn (pat : List Char) : List Char → Bool
  | [] => startsWithChars pat []
  | c :: rest => startsWithChars pat (c :: rest) || substrIn pat rest

/-- Python `s.lower()` (per-character lowering suffices for the ASCII
phrases the code searches for). -/
def strLower (s : String) : String :=
  ⟨s.data.map Char.toLower⟩

/-! ## app/routes/storage.py : get_signed_url -/

/-- The normalized outcome of `create_signed_url` plus the subsequent
duck-typed URL extraction (`str` / dict key probing / attribute probing):
either a URL was extracted, or extraction produced nothing truthy, or the
storage client raised with a message. -/
inductive SignedOutcome where
  | url (u : String)
  | noUrl
  | raised (msg : String)

/-- Collaborator outcomes for one signed-URL request, as functions of the
(stripped) storage path so that two requests normalizing to the same path
see the same store. -/
structure StorageEnv where
  imageCheck : String → String → Except String Bool
  createSignedUrl : String → SignedOutcome

/-- The success body of the signed-URL endpoint. -/
structure SignedUrlResp where
  signed_url : String
  expires_in : Nat
  storage_path : String
deriving DecidableEq, Repr

/-- Embeds `get_signed_url` after the bucket-name normalization: shape check
(≥ 3 segments), ownership check on the first segment, best-effort
record-store check (a raise escapes to the outer handler as 500; an empty
result only warns), then the signed-URL creation with its not-found
message sniffing. -/
def get_signed_url_stripped (storage_path doctor_id : String)
    (env : StorageEnv) : Except HErr SignedUrlResp :=
  let path_parts := pathParts storage_path
  if path_parts.length < 3 then
    .error ⟨400, "Formato de ruta inválido. Debe ser: doctor_id/visit_id/filename"⟩
  else if path_parts.headD "" ≠ doctor_id then
    .error ⟨403, "No tienes permiso para acceder a este archivo"⟩
  else
    match env.imageCheck storage_path doctor_id with
    | .error e => .error ⟨500, "Error al generar signed URL: " ++ e⟩
    | .ok _found =>
      match env.createSignedUrl storage_path with
      | .url u =>
          .ok { signed_url := u, expires_in := 60, storage_path := storage_path }
      | .noUrl =>
          .error ⟨500, "Error al generar URL firmada: " ++ httpDetail 500
            "No se pudo generar la URL firmada. El archivo puede no existir en Storage."⟩
      | .raised m =>
          if substrIn "not found".data (strLower m).data
              || substrIn "does not exist".data (strLower m).data then
            .error ⟨404, "Archivo no encontrado en Storage: " ++ storage_path⟩
          else
            .error ⟨500, "Error al generar URL firmada: " ++ m⟩

/-- Embeds `get_signed_url(storage_path, supabase, doctor_id)`: normalize away a
leading `"urine-images/"` bucket name, then proceed. -/
def get_signed_url (storage_path doctor_id : String) (env : StorageEnv) :
    Except HErr SignedUrlResp :=
  get_signed_url_stripped (stripBucket storage_path) doctor_id env


/-! ## C6 : uniform 401 on resolver failure -/

/-- C6 counterexample: the claim says the 401 message classifies by
taxonomy kind only, contains no resolver-internal error string, and is
identical for every resolver error.  In the code, two distinct resolver
errors produce two distinct 401 messages, each embedding the resolver's
internal error string verbatim. -/
theorem c6_verify_token_message_counterexample :
    verify_token (Except.error "boom-1") ≠ verify_token (Except.error "boom-2") ∧
    verify_token (Except.error "boom-1") =
      Except.error ⟨401, "Error al verificar token: boom-1"⟩ := by
  decide

/-- C6 (amended): every resolver failure yields HTTP status 401
(the status is uniform), but the caller-visible detail is
`"Error al verificar token: "` followed by the resolver's internal error
string, so the message varies with, and leaks, the internal error. -/
theorem c6_verify_token_uniform_401_leaky_message (e : String) :
    verify_token (Except.error e) =
      Except.error ⟨401, "Error al verificar token: " ++ e⟩ := by
  rfl

/-! ## C7 : taxonomy mapper totality and sentinel -/

/-- C7: every class index in the fixed enumeration resolves to a
non-`"unknown"` name; every index outside it resolves to exactly
`"unknown"` (and `get_class_name` is total, so it never fails). -/
theorem c7_get_class_name_sentinel (i : Int) :
    ((∃ p ∈ CLASS_NAMES, p.1 = i) → get_class_name i ≠ "unknown") ∧
    ((∀ p ∈ CLASS_NAMES, p.1 ≠ i) → get_class_name i = "unknown") := by
  constructor
  · rintro ⟨p, hp, rfl⟩
    fin_cases hp <;> decide
  · intro h
    have b0 : (i == (0 : Int)) = false :=
      beq_eq_false_iff_ne.mpr fun e => h (0, "erythrocyte") (by decide) e.symm
    have b1 : (i == (1 : Int)) = false :=
      beq_eq_false_iff_ne.mpr fun e => h (1, "leukocyte") (by decide) e.symm
    have b2 : (i == (2 : Int)) = false :=
      beq_eq_false_iff_ne.mpr fun e => h (2, "epithelial_cell") (by decide) e.symm
    have b3 : (i == (3 : Int)) = false :=
      beq_eq_false_iff_ne.mpr fun e => h (3, "crystal") (by decide) e.symm
    have b4 : (i == (4 : Int)) = false :=
      beq_eq_false_iff_ne.mpr fun e => h (4, "cast") (by decide) e.symm
    have b5 : (i == (5 : Int)) = false :=
      beq_eq_false_iff_ne.mpr fun e => h (5, "bacteria") (by decide) e.symm
    have b6 : (i == (6 : Int)) = false :=
      beq_eq_false_iff_ne.mpr fun e => h (6, "yeast") (by decide) e.symm
    simp [get_class_name, CLASS_NAMES, List.lookup, b0, b1, b2, b3, b4, b5, b6]

/-- C7 witness: a known index (3 → `"crystal"`) and an unknown index (99). -/
theorem c7_witness :
    get_class_name 3 ≠ "unknown" ∧ get_class_name 99 = "unknown" :=
  ⟨(c7_get_class_name_sentinel 3).1 ⟨(3, "crystal"), by decide, rfl⟩,
   (c7_get_class_name_sentinel 99).2 (by decide)⟩

/-! ## C8 : 10 MiB size boundary -/

/-- C8: a payload of exactly `10 * 1024 * 1024` bytes passes the size
check of the intake validator (for a whitelisted decoded format), and one
extra byte is rejected with the distinct too-large 400 error. -/
theorem c8_size_boundary (fmt : String) (h : fmt = "JPEG" ∨ fmt = "PNG") :
    validate_image (.ok fmt) (10 * 1024 * 1024) = .ok fmt ∧
    validate_image (.ok fmt) (10 * 1024 * 1024 + 1) =
      .error ⟨400, "Imagen demasiado grande (máximo 10MB)"⟩ := by
  rcases h with rfl | rfl <;> exact ⟨by decide, by decide⟩

/-- C8 witness: the boundary evaluated at a concrete JPEG payload. -/
theorem c8_witness :
    (("JPEG" : String) = "JPEG" ∨ ("JPEG" : String) = "PNG") ∧
    (validate_image (.ok "JPEG") (10 * 1024 * 1024) = .ok "JPEG" ∧
     validate_image (.ok "JPEG") (10 * 1024 * 1024 + 1) =
       .error ⟨400, "Imagen demasiado grande (máximo 10MB)"⟩) :=
  ⟨Or.inl rfl, c8_size_boundary "JPEG" (Or.inl rfl)⟩

/-! ## C9 / C10 : signed-access issuer -/

theorem startsWithChars_append (l r : List Char) :
    startsWithChars l (l ++ r) = true := by
  induction l with
  | nil => rfl
  | cons c cs ih => simp [startsWithChars, ih]

theorem drop_length_append (l r : List Char) : (l ++ r).drop l.length = r :=
  List.drop_left l r

/-- The bucket-name normalization undoes exactly one prepended
`"urine-images/"`. -/
theorem stripBucket_bucket_append (p : String) :
    stripBucket ("urine-images/" ++ p) = p := by
  have hpre : strStartsWith ("urine-images/" ++ p) (STORAGE_BUCKET ++ "/") = true :=
    startsWithChars_append (STORAGE_BUCKET ++ "/").data p.data
  unfold stripBucket
  rw [if_pos hpre]
  have hd : ("urine-images/" ++ p).data.drop (STORAGE_BUCKET.data.length + 1) = p.data :=
    drop_length_append (STORAGE_BUCKET ++ "/").data p.data
  rw [hd]

/-- A path that does not itself start with the bucket name is left
unchanged by the normalization. -/
theorem stripBucket_of_not_bucket (p : String)
    (h : strStartsWith p (STORAGE_BUCKET ++ "/") = false) :
    stripBucket p = p := by
  unfold stripBucket
  rw [h]
  rfl

/-- C9 counterexample: `"urine-images/x/y"` has three slash-separated
segments and its first segment `"urine-images"` differs from the caller
identity `"D2"`, yet the issuer answers 400 (bad shape after the bucket
strip), not the 403 the claim requires. -/
theorem c9_first_segment_counterexample :
    (pathParts "urine-images/x/y").length ≥ 3 ∧
    (pathParts "urine-images/x/y").headD "" ≠ "D2" ∧
    get_signed_url "urine-images/x/y" "D2"
        ⟨fun _ _ => .ok true, fun _ => .url "https://signed.example/u"⟩ ≠
      .error ⟨403, "No tienes permiso para acceder a este archivo"⟩ := by
  refine ⟨by decide, by decide, ?_⟩
  decide

/-- C9 (amended): after the bucket-name normalization, every path with at
least three slash-separated segments whose first segment differs from the
authenticated identity is rejected with the 403 error, for every state of
the object store and record store (the rejection precedes both lookups). -/
theorem c9_foreign_first_segment_403 (p d : String) (env : StorageEnv)
    (h3 : 3 ≤ (pathParts (stripBucket p)).length)
    (hd : (pathParts (stripBucket p)).headD "" ≠ d) :
    get_signed_url p d env =
      .error ⟨403, "No tienes permiso para acceder a este archivo"⟩ := by
  unfold get_signed_url get_signed_url_stripped
  rw [if_neg (by omega), if_pos hd]

/-- C9 witness: Scenario D — path `D1/V9/foo.jpg` requested by `D2`. -/
theorem c9_witness :
    3 ≤ (pathParts (stripBucket "D1/V9/foo.jpg")).length ∧
    (pathParts (stripBucket "D1/V9/foo.jpg")).headD "" ≠ "D2" ∧
    get_signed_url "D1/V9/foo.jpg" "D2"
        ⟨fun _ _ => .ok false, fun _ => .raised "object not found"⟩ =
      .error ⟨403, "No tienes permiso para acceder a este archivo"⟩ :=
  ⟨by decide, by decide,
   c9_foreign_first_segment_403 "D1/V9/foo.jpg" "D2" _ (by decide) (by decide)⟩

/-- C10 counterexample: for `p = "urine-images/d/v/f.jpg"` (a path that
itself begins with the bucket name) and identity `"d"`, issuing for
`"urine-images/" ++ p` (403: first segment `"urine-images"`) differs from
issuing for `p` (success: the strip yields `"d/v/f.jpg"`), because the
strip removes only one bucket layer. -/
theorem c10_strip_counterexample :
    get_signed_url ("urine-images/" ++ "urine-images/d/v/f.jpg") "d"
        ⟨fun _ _ => .ok true, fun _ => .url "https://signed.example/u"⟩ ≠
      get_signed_url "urine-images/d/v/f.jpg" "d"
        ⟨fun _ _ => .ok true, fun _ => .url "https://signed.example/u"⟩ := by
  decide

/-- C10 (amended): the issuer strips one leading `"urine-images/"` before
any shape, ownership, or record-store check, so for every identity, store
state, and path `p` that does not itself start with `"urine-images/"`,
issuing for `"urine-images/" ++ p` behaves identically to issuing for `p`. -/
theorem c10_bucket_strip_invariance (p d : String) (env : StorageEnv)
    (h : strStartsWith p (STORAGE_BUCKET ++ "/") = false) :
    get_signed_url ("urine-images/" ++ p) d env = get_signed_url p d env := by
  unfold get_signed_url
  rw [stripBucket_bucket_append, stripBucket_of_not_bucket p h]

/-- C10 witness: the invariance applied at `p = "d/v/f.jpg"`. -/
theorem c10_witness :
    strStartsWith "d/v/f.jpg" (STORAGE_BUCKET ++ "/") = false ∧
    get_signed_url ("urine-images/" ++ "d/v/f.jpg") "d"
        ⟨fun _ _ => .ok true, fun _ => .url "https://signed.example/u"⟩ =
      get_signed_url "d/v/f.jpg" "d"
        ⟨fun _ _ => .ok true, fun _ => .url "https://signed.example/u"⟩ :=
  ⟨by decide, c10_bucket_strip_invariance "d/v/f.jpg" "d" _ (by decide)⟩

/-! ## C5 : missing visit → 404 -/

/-- C5: when the record store reports no row for the submitted visit id,
the pipeline fails with 404 `"Visita no encontrada"`. -/
theorem c5_missing_visit_404 (doctor_id : String) (req : Request) (env : Env)
    (h : env.visitQuery = .ok none) :
    (predict_image doctor_id req env true).response =
      .error ⟨404, "Visita no encontrada"⟩ := by
  simp [predict_image, h, noEffects]

/-- C5 witness: a concrete run against a store with no such visit. -/
theorem c5_witness :
    (Env.visitQuery ⟨.ok none, "20250101_120000", "abcd1234", .ok true,
        .ok (some []), .ok (some "img-1"), .ok (some "an-1")⟩ = .ok none) ∧
    (predict_image "D1" ⟨"V1", "f.jpg", ".jpg", some "image/jpeg", 4, .ok "JPEG", []⟩
        ⟨.ok none, "20250101_120000", "abcd1234", .ok true,
         .ok (some []), .ok (some "img-1"), .ok (some "an-1")⟩ true).response =
      .error ⟨404, "Visita no encontrada"⟩ :=
  ⟨rfl, c5_missing_visit_404 "D1" _ _ rfl⟩

/-! ## C2 : foreign visit → 403 before any write or inference -/

/-- C2: when the visit exists but belongs to a different clinician, the
pipeline answers 403 (with the engine loaded), and — whatever the engine
state — no blob is uploaded and the inference engine is never invoked. -/
theorem c2_foreign_visit_403_no_effects (doctor_id : String) (req : Request)
    (env : Env) (visit : Visit)
    (hq : env.visitQuery = .ok (some visit))
    (hown : visit.doctor_id ≠ doctor_id) :
    (predict_image doctor_id req env true).response =
      .error ⟨403, "No tienes permiso para acceder a esta visita"⟩ ∧
    ∀ modelLoaded : Bool,
      (predict_image doctor_id req env modelLoaded).uploaded = [] ∧
      (predict_image doctor_id req env modelLoaded).inferenceCalls = 0 := by
  refine ⟨by simp [predict_image, hq, hown, noEffects], ?_⟩
  intro m
  cases m
  · exact ⟨by simp [predict_image, noEffects], by simp [predict_image, noEffects]⟩
  · exact ⟨by simp [predict_image, hq, hown, noEffects],
          by simp [predict_image, hq, hown, noEffects]⟩

/-- C2 witness: Scenario B — clinician `D2` submits against visit `V1`
owned by `D1`. -/
theorem c2_witness :
    (Env.visitQuery ⟨.ok (some ⟨"V1", "D1", "C1"⟩), "20250101_120000", "abcd1234",
        .ok true, .ok (some []), .ok (some "img-1"), .ok (some "an-1")⟩ =
      .ok (some ⟨"V1", "D1", "C1"⟩)) ∧
    (Visit.doctor_id ⟨"V1", "D1", "C1"⟩ ≠ "D2") ∧
    ((predict_image "D2" ⟨"V1", "f.jpg", ".jpg", some "image/jpeg", 4, .ok "JPEG", []⟩
        ⟨.ok (some ⟨"V1", "D1", "C1"⟩), "20250101_120000", "abcd1234",
         .ok true, .ok (some []), .ok (some "img-1"), .ok (some "an-1")⟩ true).response =
      .error ⟨403, "No tienes permiso para acceder a esta visita"⟩ ∧
    ∀ modelLoaded : Bool,
      (predict_image "D2" ⟨"V1", "f.jpg", ".jpg", some "image/jpeg", 4, .ok "JPEG", []⟩
        ⟨.ok (some ⟨"V1", "D1", "C1"⟩), "20250101_120000", "abcd1234",
         .ok true, .ok (some []), .ok (some "img-1"), .ok (some "an-1")⟩
         modelLoaded).uploaded = [] ∧
      (predict_image "D2" ⟨"V1", "f.jpg", ".jpg", some "image/jpeg", 4, .ok "JPEG", []⟩
        ⟨.ok (some ⟨"V1", "D1", "C1"⟩), "20250101_120000", "abcd1234",
         .ok true, .ok (some []), .ok (some "img-1"), .ok (some "an-1")⟩
         modelLoaded).inferenceCalls = 0) :=
  ⟨rfl, by decide, c2_foreign_visit_403_no_effects "D2" _ _ ⟨"V1", "D1", "C1"⟩ rfl (by decide)⟩

/-! ## C1 : inference failure after a successful upload -/

/-- C1 counterexample: a run in which the blob upload succeeds and the
inference engine then raises.  The operation does fail with 500, but the
uploaded blob is NOT deleted — the run's compensating-removal list is
empty — contradicting the claimed compensating delete. -/
theorem c1_no_compensation_counterexample :
    (predict_image "D1" ⟨"V1", "f.jpg", ".jpg", some "image/jpeg", 4, .ok "JPEG", []⟩
        ⟨.ok (some ⟨"V1", "D1", "C1"⟩), "20250101_120000", "abcd1234",
         .ok true, .error "inference boom", .ok (some "img-1"), .ok (some "an-1")⟩
        true).response =
      .error ⟨500, "Error al ejecutar modelo YOLO: inference boom"⟩ ∧
    (predict_image "D1" ⟨"V1", "f.jpg", ".jpg", some "image/jpeg", 4, .ok "JPEG", []⟩
        ⟨.ok (some ⟨"V1", "D1", "C1"⟩), "20250101_120000", "abcd1234",
         .ok true, .error "inference boom", .ok (some "img-1"), .ok (some "an-1")⟩
        true).uploaded = ["D1/V1/20250101_120000_abcd1234.jpg"] ∧
    (predict_image "D1" ⟨"V1", "f.jpg", ".jpg", some "image/jpeg", 4, .ok "JPEG", []⟩
        ⟨.ok (some ⟨"V1", "D1", "C1"⟩), "20250101_120000", "abcd1234",
         .ok true, .error "inference boom", .ok (some "img-1"), .ok (some "an-1")⟩
        true).removed = [] := by
  refine ⟨by decide, by decide, by decide⟩

/-- C1 (amended): when the inference engine raises after a successful blob
upload, the operation fails with a 500 DependencyError, but the uploaded
blob is NOT deleted — the compensating delete exists only in the
image-metadata-insert failure handler, not in the inference failure
handler. -/
theorem c1_inference_failure_500_blob_kept (doctor_id : String) (req : Request)
    (env : Env) (visit : Visit) (fmt e : String)
    (hq : env.visitQuery = .ok (some visit))
    (hown : visit.doctor_id = doctor_id)
    (hv : validate_image req.decoded req.bytesLen = .ok fmt)
    (hu : env.upload = .ok true)
    (hi : env.inference = .error e) :
    (predict_image doctor_id req env true).response =
      .error ⟨500, "Error al ejecutar modelo YOLO: " ++ e⟩ ∧
    (predict_image doctor_id req env true).uploaded ≠ [] ∧
    (predict_image doctor_id req env true).removed = [] := by
  refine ⟨?_, ?_, ?_⟩ <;> simp [predict_image, hq, hown, hv, hu, hi, noEffects]

/-- C1 witness: the amended statement at the counterexample's input. -/
theorem c1_witness :
    ((Env.visitQuery ⟨.ok (some ⟨"V1", "D1", "C1"⟩), "20250101_120000", "abcd1234",
        .ok true, .error "inference boom", .ok (some "img-1"), .ok (some "an-1")⟩ =
      .ok (some ⟨"V1", "D1", "C1"⟩)) ∧
     Visit.doctor_id ⟨"V1", "D1", "C1"⟩ = "D1" ∧
     validate_image (.ok "JPEG") 4 = .ok "JPEG") ∧
    ((predict_image "D1" ⟨"V1", "f.jpg", ".jpg", some "image/jpeg", 4, .ok "JPEG", []⟩
        ⟨.ok (some ⟨"V1", "D1", "C1"⟩), "20250101_120000", "abcd1234",
         .ok true, .error "inference boom", .ok (some "img-1"), .ok (some "an-1")⟩
        true).response =
      .error ⟨500, "Error al ejecutar modelo YOLO: " ++ "inference boom"⟩ ∧
     (predict_image "D1" ⟨"V1", "f.jpg", ".jpg", some "image/jpeg", 4, .ok "JPEG", []⟩
        ⟨.ok (some ⟨"V1", "D1", "C1"⟩), "20250101_120000", "abcd1234",
         .ok true, .error "inference boom", .ok (some "img-1"), .ok (some "an-1")⟩
        true).uploaded ≠ [] ∧
     (predict_image "D1" ⟨"V1", "f.jpg", ".jpg", some "image/jpeg", 4, .ok "JPEG", []⟩
        ⟨.ok (some ⟨"V1", "D1", "C1"⟩), "20250101_120000", "abcd1234",
         .ok true, .error "inference boom", .ok (some "img-1"), .ok (some "an-1")⟩
        true).removed = []) :=
  ⟨⟨rfl, rfl, by decide⟩,
   c1_inference_failure_500_blob_kept "D1" _ _ ⟨"V1", "D1", "C1"⟩ "JPEG"
     "inference boom" rfl rfl (by decide) rfl rfl⟩

/-! ## C3 : ownership comes from the credential -/

/-- Every record-store row the pipeline inserts carries the identity it was
invoked with: the only `doctor_id` fields ever written are the
`Depends(verify_token)` value. -/
theorem predict_image_rows_doctor (doctor_id : String) (req : Request)
    (env : Env) (m : Bool) :
    (∀ row ∈ (predict_image doctor_id req env m).imageRows,
        row.doctor_id = doctor_id) ∧
    (∀ row ∈ (predict_image doctor_id req env m).analysisRows,
        row.doctor_id = doctor_id) := by
  obtain ⟨vq, ts, rs, up, inf, ii, ai⟩ := env
  unfold predict_image
  rcases m with _ | _
  · simp [noEffects]
  · rcases vq with e | _ | visit
    · simp [noEffects]
    · simp [noEffects]
    · by_cases hown : visit.doctor_id = doctor_id
      · rcases hv : validate_image req.decoded req.bytesLen with err | fmt
        · simp [hown, hv, noEffects]
        · rcases up with e | _ | _
          · simp [hown, hv, noEffects]
          · simp [hown, hv, noEffects]
          · rcases inf with e | obx
            · simp [hown, hv, noEffects]
            · rcases ii with e | _ | iid
              · simp [hown, hv, noEffects]
              · simp [hown, hv, noEffects]
              · rcases ai with e | _ | aid <;> simp [hown, hv, noEffects]
      · simp [hown, noEffects]

/-- C3: for every run whose credential resolves to `uid` and whose pipeline
succeeds, both inserted rows carry `uid` as owning clinician, and the
outcome is invariant under every change of the extra request-body fields. -/
theorem c3_owner_from_credential (resolver : Except String (Option String))
    (uid : String) (req : Request) (env : Env) (m : Bool)
    (resp : PredictResponse)
    (hr : verify_token resolver = .ok uid)
    (hs : (predict_endpoint resolver req env m).response = .ok resp) :
    (∀ row ∈ (predict_endpoint resolver req env m).imageRows,
        row.doctor_id = uid) ∧
    (∀ row ∈ (predict_endpoint resolver req env m).analysisRows,
        row.doctor_id = uid) ∧
    ∀ extras, predict_endpoint resolver { req with extraBody := extras } env m =
      predict_endpoint resolver req env m := by
  have hpe : predict_endpoint resolver req env m = predict_image uid req env m := by
    unfold predict_endpoint
    rw [hr]
  refine ⟨?_, ?_, ?_⟩
  · rw [hpe]
    exact (predict_image_rows_doctor uid req env m).1
  · rw [hpe]
    exact (predict_image_rows_doctor uid req env m).2
  · intro extras
    cases req
    rfl

/-- C3 witness: a concrete successful run with resolver identity `D1`. -/
theorem c3_witness :
    (verify_token (.ok (some "D1")) = .ok "D1" ∧
     (predict_endpoint (.ok (some "D1"))
        ⟨"V1", "f.jpg", ".jpg", some "image/jpeg", 4, .ok "JPEG", []⟩
        ⟨.ok (some ⟨"V1", "D1", "C1"⟩), "20250101_120000", "abcd1234",
         .ok true, .ok (some []), .ok (some "img-1"), .ok (some "an-1")⟩
        true).response =
      .ok ⟨"img-1", "an-1", "D1/V1/20250101_120000_abcd1234.jpg", initCounts, [], 0⟩) ∧
    ((∀ row ∈ (predict_endpoint (.ok (some "D1"))
        ⟨"V1", "f.jpg", ".jpg", some "image/jpeg", 4, .ok "JPEG", []⟩
        ⟨.ok (some ⟨"V1", "D1", "C1"⟩), "20250101_120000", "abcd1234",
         .ok true, .ok (some []), .ok (some "img-1"), .ok (some "an-1")⟩
        true).imageRows, row.doctor_id = "D1") ∧
     (∀ row ∈ (predict_endpoint (.ok (some "D1"))
        ⟨"V1", "f.jpg", ".jpg", some "image/jpeg", 4, .ok "JPEG", []⟩
        ⟨.ok (some ⟨"V1", "D1", "C1"⟩), "20250101_120000", "abcd1234",
         .ok true, .ok (some []), .ok (some "img-1"), .ok (some "an-1")⟩
        true).analysisRows, row.doctor_id = "D1") ∧
     ∀ extras, predict_endpoint (.ok (some "D1"))
        ⟨"V1", "f.jpg", ".jpg", some "image/jpeg", 4, .ok "JPEG", extras⟩
        ⟨.ok (some ⟨"V1", "D1", "C1"⟩), "20250101_120000", "abcd1234",
         .ok true, .ok (some []), .ok (some "img-1"), .ok (some "an-1")⟩ true =
       predict_endpoint (.ok (some "D1"))
        ⟨"V1", "f.jpg", ".jpg", some "image/jpeg", 4, .ok "JPEG", []⟩
        ⟨.ok (some ⟨"V1", "D1", "C1"⟩), "20250101_120000", "abcd1234",
         .ok true, .ok (some []), .ok (some "img-1"), .ok (some "an-1")⟩ true) :=
  ⟨⟨rfl, by decide⟩,
   c3_owner_from_credential (.ok (some "D1")) "D1" _ _ true
     ⟨"img-1", "an-1", "D1/V1/20250101_120000_abcd1234.jpg", initCounts, [], 0⟩
     rfl (by decide)⟩

/-! ## C4 : counts sum equals detections length -/

/-- Incrementing one key of the count dict raises the value sum by one. -/
theorem sumValues_incr (d : List (String × Nat)) (k : String) :
    sumValues (dictSet d k (dictGet d k + 1)) = sumValues d + 1 := by
  induction d with
  | nil => simp [dictGet, dictSet, sumValues]
  | cons hd tl ih =>
    obtain ⟨k', v'⟩ := hd
    by_cases hk : k' = k
    · simp [dictGet, dictSet, hk, sumValues]
      omega
    · simp only [dictGet, dictSet, hk, if_false, sumValues, List.map_cons,
        List.sum_cons] at ih ⊢
      omega

/-- The detection loop adds one detection and one unit of count per box. -/
theorem foldl_stepBox (boxes : List Box)
    (acc : List Detection × List (String × Nat)) :
    sumValues (boxes.foldl stepBox acc).2 = sumValues acc.2 + boxes.length ∧
    (boxes.foldl stepBox acc).1.length = acc.1.length + boxes.length := by
  induction boxes generalizing acc with
  | nil => simp
  | cons b bs ih =>
    simp only [List.foldl_cons, List.length_cons]
    obtain ⟨ih1, ih2⟩ := ih (stepBox acc b)
    constructor
    · rw [ih1]
      have h2 : (stepBox acc b).2 =
          dictSet acc.2 (get_class_name b.cls)
            (dictGet acc.2 (get_class_name b.cls) + 1) := rfl
      rw [h2, sumValues_incr]
      omega
    · rw [ih2]
      simp [stepBox]
      omega

/-- Over the zero-initialized counts, the loop ends with
`sum(counts.values()) = len(detections)`. -/
theorem processBoxes_sum (boxes : List Box) :
    sumValues (processBoxes boxes).2 = (processBoxes boxes).1.length := by
  obtain ⟨h1, h2⟩ := foldl_stepBox boxes ([], initCounts)
  unfold processBoxes
  rw [h1, h2]
  have h0 : sumValues initCounts = 0 := by decide
  rw [h0]
  simp

/-- C4: on every successful run, the sum of the values of the class-count
map equals the length of the detection list, both in the response and in
the persisted analysis row. -/
theorem c4_counts_sum_eq_detections (doctor_id : String) (req : Request)
    (env : Env) (m : Bool) (resp : PredictResponse)
    (hs : (predict_image doctor_id req env m).response = .ok resp) :
    sumValues resp.counts = resp.detections.length ∧
    ∀ row ∈ (predict_image doctor_id req env m).analysisRows,
      sumValues row.counts = row.detections.length := by
  obtain ⟨vq, ts, rs, up, inf, ii, ai⟩ := env
  rcases m with _ | _
  · simp [predict_image, noEffects] at hs
  · rcases vq with e | _ | visit
    · simp [predict_image, noEffects] at hs
    · simp [predict_image, noEffects] at hs
    · by_cases hown : visit.doctor_id = doctor_id
      · rcases hv : validate_image req.decoded req.bytesLen with err | fmt
        · simp [predict_image, hown, hv, noEffects] at hs
        · rcases up with e | _ | _
          · simp [predict_image, hown, hv, noEffects] at hs
          · simp [predict_image, hown, hv, noEffects] at hs
          · rcases inf with e | obx
            · simp [predict_image, hown, hv, noEffects] at hs
            · rcases ii with e | _ | iid
              · simp [predict_image, hown, hv, noEffects] at hs
              · simp [predict_image, hown, hv, noEffects] at hs
              · rcases ai with e | _ | aid
                · simp [predict_image, hown, hv, noEffects] at hs
                · simp [predict_image, hown, hv, noEffects] at hs
                · rcases obx with _ | boxes
                  · simp [predict_image, hown, hv, noEffects] at hs
                    subst hs
                    refine ⟨?_, ?_⟩
                    · show sumValues initCounts = ([] : List Detection).length
                      decide
                    · intro row hrow
                      simp [predict_image, hown, hv, noEffects] at hrow
                      subst hrow
                      show sumValues initCounts = ([] : List Detection).length
                      decide
                  · simp [predict_image, hown, hv, noEffects] at hs
                    subst hs
                    refine ⟨processBoxes_sum boxes, ?_⟩
                    intro row hrow
                    simp [predict_image, hown, hv, noEffects] at hrow
                    subst hrow
                    exact processBoxes_sum boxes
      · simp [predict_image, hown, noEffects] at hs

/-- C4 witness: a concrete successful run with an empty detection list. -/
theorem c4_witness :
    ((predict_image "D1" ⟨"V1", "f.jpg", ".jpg", some "image/jpeg", 4, .ok "JPEG", []⟩
        ⟨.ok (some ⟨"V1", "D1", "C1"⟩), "20250101_120000", "abcd1234",
         .ok true, .ok (some []), .ok (some "img-1"), .ok (some "an-1")⟩
        true).response =
      .ok ⟨"img-1", "an-1", "D1/V1/20250101_120000_abcd1234.jpg", initCounts, [], 0⟩) ∧
    (sumValues (PredictResponse.counts
        ⟨"img-1", "an-1", "D1/V1/20250101_120000_abcd1234.jpg", initCounts, [], 0⟩) =
      (PredictResponse.detections
        ⟨"img-1", "an-1", "D1/V1/20250101_120000_abcd1234.jpg", initCounts, [], 0⟩).length ∧
     ∀ row ∈ (predict_image "D1"
        ⟨"V1", "f.jpg", ".jpg", some "image/jpeg", 4, .ok "JPEG", []⟩
        ⟨.ok (some ⟨"V1", "D1", "C1"⟩), "20250101_120000", "abcd1234",
         .ok true, .ok (some []), .ok (some "img-1"), .ok (some "an-1")⟩
        true).analysisRows,
       sumValues row.counts = row.detections.length) :=
  ⟨by decide,
   c4_counts_sum_eq_detections "D1" _ _ true
     ⟨"img-1", "an-1", "D1/V1/20250101_120000_abcd1234.jpg", initCounts, [], 0⟩
     (by decide)⟩
